import Mathlib

/-!
Verification of the json-chatbot repository: a shallow embedding of its
personality model, prompt synthesizer, mock-response selector, rate limiter,
response pipeline and preset store, followed by theorems settling the
specification's claims about them.

Numbers are modelled with exact rationals; the pseudo-random pool pick of
`random.choice` is modelled by an arbitrary index reduced modulo the pool
size; the Streamlit session state and the HTTP call are modelled by explicit
state passing and an outcome oracle.
-/

/-- The five-scalar personality configuration, fields in the insertion order
of the source's dictionaries (creativity, professionalism, friendliness,
sarcasm, verbosity). -/
structure Personality where
  creativity : ℚ
  professionalism : ℚ
  friendliness : ℚ
  sarcasm : ℚ
  verbosity : ℚ
  deriving DecidableEq

/-- A chat message: `{role, content}`. -/
structure Message where
  role : String
  content : String
  deriving DecidableEq

/- Constants from `utils/constants.py`. -/

def OLLAMA_MODEL : String := "phi3:mini"

def MIN_TEMPERATURE : ℚ := 0.3

def MAX_TEMPERATURE : ℚ := 1.0

def MIN_TOKENS : ℚ := 50

def MAX_TOKENS : ℚ := 200

def CONTEXT_WINDOW_SIZE : ℕ := 8

def DEFAULT_PERSONALITY : Personality :=
  ⟨0.5, 0.5, 0.5, 0.0, 0.5⟩

/-- `_MIN_API_CALL_INTERVAL` from `utils/ollama.py`. -/
def MIN_API_CALL_INTERVAL : ℚ := 2.0

/- `utils/mock_responses.py`: the five pools of the `MOCK_RESPONSES` dict. -/

def mock_pool_high_sarcasm : List String :=
  ["Oh, wow, another message. I'm absolutely thrilled to be helping you.",
   "Fascinating. You've used yet another of your precious messages on this.",
   "Let me guess - you want a helpful response? How original.",
   "I'd love to help, but I'm too busy contemplating the meaning of your request.",
   "Sure, I'll answer that. Not like I have anything better to do."]

def mock_pool_high_friendliness : List String :=
  ["I'd be absolutely delighted to help with that! 😊",
   "What a wonderful question! Let me think about how best to assist you.",
   "I'm so glad you asked! Here's what I can tell you about that:",
   "You've come to the right place! I'm happy to help with your question.",
   "That's a great question! Let me share what I know about this topic."]

def mock_pool_high_professionalism : List String :=
  ["I will address your inquiry with the utmost professionalism.",
   "Thank you for your question. Based on the available information, I can provide the following response:",
   "I have analyzed your query and prepared the following comprehensive response.",
   "After careful consideration of your question, I've formulated this response:",
   "I appreciate your question. Allow me to provide a detailed and professional answer."]

def mock_pool_high_creativity : List String :=
  ["Imagine if answers were clouds - I'd give you the fluffiest one! But since they're not, here's my creative take:",
   "If this response were a painting, it would be a masterpiece of helpful information! Here's what I've created:",
   "Let's approach this from a completely new angle! What if we considered that...",
   "I'm going to answer this in a way nobody has ever answered before! Here's my innovative perspective:",
   "Prepare for a response that will take you on a journey of imagination and insight!"]

def mock_pool_default : List String :=
  ["I understand your question. Here's what I can tell you about that.",
   "Thanks for your message. Let me help with that.",
   "I've processed your question and here's my response.",
   "That's an interesting question. Here's what I think about it.",
   "Let me address that for you. Here's the information you requested."]

/-- The `MOCK_RESPONSES` dictionary, as a lookup by key. -/
def MOCK_RESPONSES (key : String) : List String :=
  if key = "high_sarcasm" then mock_pool_high_sarcasm
  else if key = "high_friendliness" then mock_pool_high_friendliness
  else if key = "high_professionalism" then mock_pool_high_professionalism
  else if key = "high_creativity" then mock_pool_high_creativity
  else if key = "default" then mock_pool_default
  else []

/-- `random.choice(pool)`, with the entropy source made explicit as an index
reduced modulo the pool size. -/
def random_choice (pool : List String) (idx : ℕ) : String :=
  pool.getD (idx % pool.length) ""

/-- The four comparison axes of `get_dominant_trait` (the dict comprehension
removes verbosity before the `max`). -/
inductive Trait
  | creativity
  | professionalism
  | friendliness
  | sarcasm
  deriving DecidableEq

/-- Python's `max(items, key=value)`: fold keeping the current best, replacing
it only on a strictly greater value, so the first maximum wins. -/
def max_by_value : List (Trait × ℚ) → Trait × ℚ → Trait × ℚ
  | [], best => best
  | x :: xs, best => max_by_value xs (if best.2 < x.2 then x else best)

/-- `get_dominant_trait` from `utils/mock_responses.py`: the first-maximum
trait of the verbosity-free items, scanned in dict insertion order
creativity, professionalism, friendliness, sarcasm. -/
def get_dominant_trait (p : Personality) : Trait :=
  (max_by_value
    [(Trait.professionalism, p.professionalism),
     (Trait.friendliness, p.friendliness),
     (Trait.sarcasm, p.sarcasm)]
    (Trait.creativity, p.creativity)).1

/-- `get_mock_response` from `utils/mock_responses.py`. -/
def get_mock_response (p : Personality) (idx : ℕ) : String :=
  let dominant_trait := get_dominant_trait p
  if dominant_trait = Trait.sarcasm ∧ p.sarcasm > 0.6 then
    random_choice (MOCK_RESPONSES "high_sarcasm") idx
  else if dominant_trait = Trait.friendliness ∧ p.friendliness > 0.6 then
    random_choice (MOCK_RESPONSES "high_friendliness") idx
  else if dominant_trait = Trait.professionalism ∧ p.professionalism > 0.6 then
    random_choice (MOCK_RESPONSES "high_professionalism") idx
  else if dominant_trait = Trait.creativity ∧ p.creativity > 0.6 then
    random_choice (MOCK_RESPONSES "high_creativity") idx
  else
    random_choice (MOCK_RESPONSES "default") idx

/-- `_validate_personality` from `utils/ollama.py`: true exactly when no
`ValueError` is raised, i.e. every trait lies in `[0, 1]`. -/
def validate_personality (p : Personality) : Prop :=
  (0 ≤ p.creativity ∧ p.creativity ≤ 1) ∧
  (0 ≤ p.professionalism ∧ p.professionalism ≤ 1) ∧
  (0 ≤ p.friendliness ∧ p.friendliness ≤ 1) ∧
  (0 ≤ p.sarcasm ∧ p.sarcasm ≤ 1) ∧
  (0 ≤ p.verbosity ∧ p.verbosity ≤ 1)

instance (p : Personality) : Decidable (validate_personality p) := by
  unfold validate_personality
  infer_instance

/-- The fixed f-string template of `create_system_prompt`, as a function of
the interpolated `traits_text`. -/
def prompt_template (traits_text : String) : String :=
  "You are a chatbot with a personality that is " ++ traits_text ++ ".\n" ++
  "    IMPORTANT INSTRUCTIONS:\n" ++
  "- Provide only your final response, DO NOT show your reasoning process\n" ++
  "- DO NOT use phrases like \"Let me think...\" or \"Here's my reasoning...\"\n" ++
  "- DO NOT include any text before or after your actual response\n" ++
  "- Respond directly and concisely as your personality would.\n" ++
  "Respond appropriately based on your configured personality traits."

/-- The body of `create_system_prompt` after validation has passed: the
appended clauses, the default clause on an empty list, the join and the
template. -/
def system_prompt_text (p : Personality) : String :=
  let traits : List String :=
    (if p.professionalism > 0.7 then ["highly professional and formal"]
     else if p.professionalism < 0.3 then ["casual and informal"] else []) ++
    (if p.friendliness > 0.7 then ["extremely friendly and warm"]
     else if p.friendliness < 0.3 then ["somewhat reserved and direct"] else []) ++
    (if p.sarcasm > 0.7 then ["quite sarcastic and witty"]
     else if p.sarcasm > 0.4 then ["slightly sarcastic"] else []) ++
    (if p.creativity > 0.7 then ["highly creative and imaginative"]
     else if p.creativity < 0.3 then ["factual and straightforward"] else [])
  let traits := if traits.isEmpty then ["helpful and informative"] else traits
  prompt_template (String.intercalate ", " traits)

/-- `create_system_prompt` from `utils/ollama.py`: validates first (raising
on an out-of-range trait, modelled as `none`), then builds the prompt. -/
def create_system_prompt (p : Personality) : Option String :=
  if validate_personality p then some (system_prompt_text p) else none

/-- `_rate_limit` from `utils/ollama.py`, with the session timestamp passed
explicitly: returns the proceed flag and the (possibly updated) value of
`st.session_state.last_api_call_time`. -/
def rate_limit (last_api_call_time current_time : ℚ) : Bool × ℚ :=
  if current_time - last_api_call_time < MIN_API_CALL_INTERVAL then
    (false, last_api_call_time)
  else
    (true, current_time)

/-- The `wait_time` computed in `_rate_limit`'s reject branch. -/
def rate_limit_wait_time (last_api_call_time current_time : ℚ) : ℚ :=
  MIN_API_CALL_INTERVAL - (current_time - last_api_call_time)

/-- The outbound `messages` list of `get_llm_response`: the system prompt,
the last `CONTEXT_WINDOW_SIZE` history entries re-wrapped as role/content
records (the identity on `Message`), then the user prompt. -/
def build_messages (system_prompt_content : String) (message_history : List Message)
    (prompt : String) : List Message :=
  Message.mk "system" system_prompt_content ::
    (message_history.drop (message_history.length - CONTEXT_WINDOW_SIZE)).map
      (fun msg => Message.mk msg.role msg.content) ++
    [Message.mk "user" prompt]

/-- The JSON payload `get_llm_response` posts to the Ollama endpoint. -/
structure OllamaPayload where
  model : String
  messages : List Message
  temperature : ℚ
  num_predict : ℤ
  stream : Bool
  deriving DecidableEq

/-- Outcome oracle for the single `requests.post` call: transport failure,
other request failure (non-2xx or the like), a 2xx body missing the
`message` field, or a 2xx body carrying the assistant content. -/
inductive NetResult
  | connectionError
  | requestFailed
  | missingMessageField
  | ok (content : String)
  deriving DecidableEq

/-- The distinct exception classes `get_llm_response` can raise. -/
inductive FailKind
  | rateLimited
  | invalidConfig
  | connectionError
  | requestFailed
  | missingMessageField
  deriving DecidableEq

/-- What one call to `get_llm_response` produces: the returned content or the
raised exception, the session's `last_api_call_time` afterwards, and the
payload actually posted (`none` when no request was issued). -/
structure LLMCallOutcome where
  result : Except FailKind String
  last_api_call_time : ℚ
  sent : Option OllamaPayload

/-- `get_llm_response` from `utils/ollama.py`, over the explicit session
timestamp and the network oracle: rate limit first (advancing the timestamp
on acceptance), then validation, then the request built from the system
prompt, the truncated history, and the two personality-derived parameters. -/
def get_llm_response (prompt : String) (message_history : List Message)
    (p : Personality) (last_api_call_time current_time : ℚ)
    (net : NetResult) : LLMCallOutcome :=
  match rate_limit last_api_call_time current_time with
  | (false, last) => ⟨Except.error FailKind.rateLimited, last, none⟩
  | (true, last) =>
    if validate_personality p then
      let system_prompt_content := system_prompt_text p
      let messages := build_messages system_prompt_content message_history prompt
      let temperature := MIN_TEMPERATURE + p.creativity * (MAX_TEMPERATURE - MIN_TEMPERATURE)
      let max_tokens : ℤ := ⌊MIN_TOKENS + p.verbosity * (MAX_TOKENS - MIN_TOKENS)⌋
      let payload : OllamaPayload := ⟨OLLAMA_MODEL, messages, temperature, max_tokens, false⟩
      match net with
      | NetResult.connectionError =>
          ⟨Except.error FailKind.connectionError, last, some payload⟩
      | NetResult.requestFailed =>
          ⟨Except.error FailKind.requestFailed, last, some payload⟩
      | NetResult.missingMessageField =>
          ⟨Except.error FailKind.missingMessageField, last, some payload⟩
      | NetResult.ok content =>
          ⟨Except.ok content, last, some payload⟩
    else
      ⟨Except.error FailKind.invalidConfig, last, none⟩

/-- The session state of `app.py` that the chat turn reads and writes. -/
structure AppState where
  messages : List Message
  personality : Personality
  api_available : Bool
  deriving DecidableEq

/-- `reset_conversation` from `app.py`: clears the history and closes the
circuit back to available, keeping the personality. -/
def reset_conversation (st : AppState) : AppState :=
  { st with messages := [], api_available := true }

/-- What one chat turn of `render_chat_interface` produces: the session state
afterwards, the session's rate-limit timestamp afterwards, whether a network
request was attempted, and the displayed response. -/
structure ChatStepResult where
  state : AppState
  last_api_call_time : ℚ
  network_attempted : Bool
  response : String
  deriving DecidableEq

/-- The chat-input branch of `render_chat_interface` in `app.py`: append the
user message; if the circuit is open (`api_available` false) raise
"API marked as unavailable", which the handler treats as a non-rate-limit
failure (flag stays false, mock response, no network attempt); otherwise call
`get_llm_response` and dispatch on its outcome exactly as the
`except` clause does (`"rate_limit_exceeded"` occurs in the exception text
only for the rate-limit failure). -/
def render_chat_step (st : AppState) (prompt : String)
    (last_api_call_time current_time : ℚ) (net : NetResult)
    (mock_idx : ℕ) : ChatStepResult :=
  let messages1 := st.messages ++ [Message.mk "user" prompt]
  if st.api_available then
    let out := get_llm_response prompt messages1 st.personality
      last_api_call_time current_time net
    match out.result with
    | Except.ok content =>
        ⟨⟨messages1 ++ [Message.mk "assistant" content], st.personality, true⟩,
         out.last_api_call_time, out.sent.isSome, content⟩
    | Except.error FailKind.rateLimited =>
        let response :=
          "I'm processing messages too quickly! Please wait 2 seconds before sending another message."
        ⟨⟨messages1 ++ [Message.mk "assistant" response], st.personality, true⟩,
         out.last_api_call_time, out.sent.isSome, response⟩
    | Except.error _ =>
        let response := get_mock_response st.personality mock_idx
        ⟨⟨messages1 ++ [Message.mk "assistant" response], st.personality, false⟩,
         out.last_api_call_time, out.sent.isSome, response⟩
  else
    let response := get_mock_response st.personality mock_idx
    ⟨⟨messages1 ++ [Message.mk "assistant" response], st.personality, false⟩,
     last_api_call_time, false, response⟩

/-- `get_default_presets` from `utils/presets.py`. -/
def get_default_presets : List (String × Personality) :=
  [("Professional", ⟨0.3, 0.9, 0.6, 0.0, 0.7⟩),
   ("Friendly", ⟨0.5, 0.4, 0.9, 0.1, 0.8⟩),
   ("Creative", ⟨0.9, 0.3, 0.7, 0.3, 0.9⟩),
   ("Sarcastic", ⟨0.7, 0.2, 0.4, 0.9, 0.6⟩)]

/-- The observable states of the backing JSON preset file. -/
inductive PresetFile
  | absent
  | unparsable
  | parsed (table : List (String × Personality))
  deriving DecidableEq

/-- `save_presets` from `utils/presets.py`: writes the table to the file. -/
def save_presets (presets : List (String × Personality)) (_fs : PresetFile) : PresetFile :=
  PresetFile.parsed presets

/-- `load_presets` from `utils/presets.py`, over the explicit file state: an
absent file yields the defaults and writes them back (`save_presets`); a file
whose parse raises `json.JSONDecodeError` yields the defaults with no write;
a parsed file yields its contents unchanged. -/
def load_presets (fs : PresetFile) : List (String × Personality) × PresetFile :=
  match fs with
  | PresetFile.absent =>
      let default_presets := get_default_presets
      (default_presets, save_presets default_presets PresetFile.absent)
  | PresetFile.unparsable => (get_default_presets, PresetFile.unparsable)
  | PresetFile.parsed table => (table, PresetFile.parsed table)

/- Reference definitions transcribed from the specification's words, for the
refinement-style claims. -/

/-- The value of one comparison axis. -/
def trait_value (p : Personality) : Trait → ℚ
  | Trait.creativity => p.creativity
  | Trait.professionalism => p.professionalism
  | Trait.friendliness => p.friendliness
  | Trait.sarcasm => p.sarcasm

/-- The `MOCK_RESPONSES` key of an axis's high pool. -/
def high_key : Trait → String
  | Trait.creativity => "high_creativity"
  | Trait.professionalism => "high_professionalism"
  | Trait.friendliness => "high_friendliness"
  | Trait.sarcasm => "high_sarcasm"

/-- From the spec's words: the arg-max over the four axes, ties resolved to
the first axis in the canonical order creativity, professionalism,
friendliness, sarcasm. -/
def dominant_trait_spec (p : Personality) : Trait :=
  if p.professionalism ≤ p.creativity ∧ p.friendliness ≤ p.creativity ∧
      p.sarcasm ≤ p.creativity then Trait.creativity
  else if p.friendliness ≤ p.professionalism ∧ p.sarcasm ≤ p.professionalism then
    Trait.professionalism
  else if p.sarcasm ≤ p.friendliness then Trait.friendliness
  else Trait.sarcasm

/-- From the spec's words: the professionalism clause of the threshold
mapping. -/
def clause_professionalism (p : Personality) : List String :=
  if p.professionalism > 0.7 then ["highly professional and formal"]
  else if p.professionalism < 0.3 then ["casual and informal"]
  else []

/-- From the spec's words: the friendliness clause of the threshold
mapping. -/
def clause_friendliness (p : Personality) : List String :=
  if p.friendliness > 0.7 then ["extremely friendly and warm"]
  else if p.friendliness < 0.3 then ["somewhat reserved and direct"]
  else []

/-- From the spec's words: the sarcasm clause, high threshold evaluated
before the mid threshold. -/
def clause_sarcasm (p : Personality) : List String :=
  if p.sarcasm > 0.7 then ["quite sarcastic and witty"]
  else if p.sarcasm > 0.4 then ["slightly sarcastic"]
  else []

/-- From the spec's words: the creativity clause of the threshold mapping. -/
def clause_creativity (p : Personality) : List String :=
  if p.creativity > 0.7 then ["highly creative and imaginative"]
  else if p.creativity < 0.3 then ["factual and straightforward"]
  else []

/-- From the spec's words: the per-axis clause list of the reference
threshold mapping, in the axis order of the spec. -/
def clauses_spec (p : Personality) : List String :=
  clause_professionalism p ++ clause_friendliness p ++
    clause_sarcasm p ++ clause_creativity p

/-- The 25 fixed literal strings of the five pools. -/
def all_mock_strings : List String :=
  mock_pool_high_sarcasm ++ mock_pool_high_friendliness ++
    mock_pool_high_professionalism ++ mock_pool_high_creativity ++
    mock_pool_default

/- Helper lemmas, shared by several claims. -/

/-- A `random.choice` pick from a non-empty pool is a member of the pool. -/
theorem random_choice_mem (pool : List String) (idx : ℕ) (hp : pool ≠ []) :
    random_choice pool idx ∈ pool := by
  have hl : 0 < pool.length := List.length_pos.mpr hp
  have h : idx % pool.length < pool.length := Nat.mod_lt _ hl
  unfold random_choice
  rw [List.getD_eq_getElem pool "" h]
  exact List.getElem_mem h

/-- An accepted rate-limit check sets the stored timestamp to the current
time. -/
theorem rate_limit_accepted (last now : ℚ) (h : (rate_limit last now).1 = true) :
    rate_limit last now = (true, now) := by
  by_cases hc : now - last < MIN_API_CALL_INTERVAL
  · exfalso
    simp [rate_limit, hc] at h
  · simp [rate_limit, hc]

/-- Python's first-maximum `max` over the four axes agrees with the spec's
arg-max with ties resolved to the first axis in canonical order. -/
theorem get_dominant_trait_eq_spec (p : Personality) :
    get_dominant_trait p = dominant_trait_spec p := by
  simp only [get_dominant_trait, max_by_value]
  by_cases h1 : p.creativity < p.professionalism
  · simp only [h1, if_true, ite_true]
    by_cases h2 : p.professionalism < p.friendliness
    · simp only [h2, if_true, ite_true]
      by_cases h3 : p.friendliness < p.sarcasm
      · simp only [h3, if_true, ite_true]
        have g1 : ¬(p.professionalism ≤ p.creativity ∧ p.friendliness ≤ p.creativity ∧
            p.sarcasm ≤ p.creativity) := by rintro ⟨a, -, -⟩; linarith
        have g2 : ¬(p.friendliness ≤ p.professionalism ∧ p.sarcasm ≤ p.professionalism) := by
          rintro ⟨a, -⟩; linarith
        have g3 : ¬(p.sarcasm ≤ p.friendliness) := by linarith
        simp only [dominant_trait_spec, if_neg g1, if_neg g2, if_neg g3]
      · simp only [h3, if_false, ite_false]
        have g1 : ¬(p.professionalism ≤ p.creativity ∧ p.friendliness ≤ p.creativity ∧
            p.sarcasm ≤ p.creativity) := by rintro ⟨a, -, -⟩; linarith
        have g2 : ¬(p.friendliness ≤ p.professionalism ∧ p.sarcasm ≤ p.professionalism) := by
          rintro ⟨a, -⟩; linarith
        have g3 : p.sarcasm ≤ p.friendliness := by linarith
        simp only [dominant_trait_spec, if_neg g1, if_neg g2, if_pos g3]
    · simp only [h2, if_false, ite_false]
      by_cases h3 : p.professionalism < p.sarcasm
      · simp only [h3, if_true, ite_true]
        have g1 : ¬(p.professionalism ≤ p.creativity ∧ p.friendliness ≤ p.creativity ∧
            p.sarcasm ≤ p.creativity) := by rintro ⟨a, -, -⟩; linarith
        have g2 : ¬(p.friendliness ≤ p.professionalism ∧ p.sarcasm ≤ p.professionalism) := by
          rintro ⟨-, a⟩; linarith
        have g3 : ¬(p.sarcasm ≤ p.friendliness) := by push_neg at h2; linarith
        simp only [dominant_trait_spec, if_neg g1, if_neg g2, if_neg g3]
      · simp only [h3, if_false, ite_false]
        have g1 : ¬(p.professionalism ≤ p.creativity ∧ p.friendliness ≤ p.creativity ∧
            p.sarcasm ≤ p.creativity) := by rintro ⟨a, -, -⟩; linarith
        have g2 : p.friendliness ≤ p.professionalism ∧ p.sarcasm ≤ p.professionalism := by
          push_neg at h2 h3
          exact ⟨h2, h3⟩
        simp only [dominant_trait_spec, if_neg g1, if_pos g2]
  · simp only [h1, if_false, ite_false]
    by_cases h2 : p.creativity < p.friendliness
    · simp only [h2, if_true, ite_true]
      by_cases h3 : p.friendliness < p.sarcasm
      · simp only [h3, if_true, ite_true]
        have g1 : ¬(p.professionalism ≤ p.creativity ∧ p.friendliness ≤ p.creativity ∧
            p.sarcasm ≤ p.creativity) := by rintro ⟨-, a, -⟩; linarith
        have g2 : ¬(p.friendliness ≤ p.professionalism ∧ p.sarcasm ≤ p.professionalism) := by
          push_neg at h1
          rintro ⟨a, -⟩
          linarith
        have g3 : ¬(p.sarcasm ≤ p.friendliness) := by linarith
        simp only [dominant_trait_spec, if_neg g1, if_neg g2, if_neg g3]
      · simp only [h3, if_false, ite_false]
        have g1 : ¬(p.professionalism ≤ p.creativity ∧ p.friendliness ≤ p.creativity ∧
            p.sarcasm ≤ p.creativity) := by rintro ⟨-, a, -⟩; linarith
        have g2 : ¬(p.friendliness ≤ p.professionalism ∧ p.sarcasm ≤ p.professionalism) := by
          push_neg at h1
          rintro ⟨a, -⟩
          linarith
        have g3 : p.sarcasm ≤ p.friendliness := by linarith
        simp only [dominant_trait_spec, if_neg g1, if_neg g2, if_pos g3]
    · simp only [h2, if_false, ite_false]
      by_cases h3 : p.creativity < p.sarcasm
      · simp only [h3, if_true, ite_true]
        have g1 : ¬(p.professionalism ≤ p.creativity ∧ p.friendliness ≤ p.creativity ∧
            p.sarcasm ≤ p.creativity) := by rintro ⟨-, -, a⟩; linarith
        have g2 : ¬(p.friendliness ≤ p.professionalism ∧ p.sarcasm ≤ p.professionalism) := by
          push_neg at h1
          rintro ⟨-, a⟩
          linarith
        have g3 : ¬(p.sarcasm ≤ p.friendliness) := by
          push_neg at h2
          intro a
          linarith
        simp only [dominant_trait_spec, if_neg g1, if_neg g2, if_neg g3]
      · simp only [h3, if_false, ite_false]
        have g1 : p.professionalism ≤ p.creativity ∧ p.friendliness ≤ p.creativity ∧
            p.sarcasm ≤ p.creativity := by
          push_neg at h1 h2 h3
          exact ⟨h1, h2, h3⟩
        simp only [dominant_trait_spec, if_pos g1]

/- Claim theorems. -/

/-- C1 counterexample: with the backing file present but unparsable,
`load_presets` returns the four built-in presets yet does NOT write them back
to the store — the claim's write-back conjunct fails at this input. -/
theorem load_presets_unparsable_counterexample :
    ¬ ((load_presets PresetFile.unparsable).1 = get_default_presets ∧
       (load_presets PresetFile.unparsable).2 = PresetFile.parsed get_default_presets) := by
  rintro ⟨-, h⟩
  simp [load_presets] at h

/-- C1 (amended): if the backing file is absent, `load_presets` returns the
four built-in presets and writes that fallback table back to the store; if
the file is present but unparsable it returns the four built-in presets
without writing them back; if the file parses, its contents are returned
unchanged. -/
theorem load_presets_fallback :
    load_presets PresetFile.absent
        = (get_default_presets, PresetFile.parsed get_default_presets) ∧
    load_presets PresetFile.unparsable = (get_default_presets, PresetFile.unparsable) ∧
    ∀ table, load_presets (PresetFile.parsed table) = (table, PresetFile.parsed table) :=
  ⟨rfl, rfl, fun _ => rfl⟩

/-- C3: for a personality with all five fields in `[0, 1]`, the dominant
trait computed by the code is the spec's arg-max over the four axes (ties to
the first in canonical order), and the mock response is drawn from the
dominant trait's high pool when its value exceeds 0.6, and from the default
pool otherwise. -/
theorem get_mock_response_pool (p : Personality) (idx : ℕ)
    (h : validate_personality p) :
    get_dominant_trait p = dominant_trait_spec p ∧
    get_mock_response p idx ∈
      (if trait_value p (get_dominant_trait p) > 0.6
       then MOCK_RESPONSES (high_key (get_dominant_trait p))
       else MOCK_RESPONSES "default") := by
  refine ⟨get_dominant_trait_eq_spec p, ?_⟩
  rcases htd : get_dominant_trait p with _ | _ | _ | _
  · by_cases hv : p.creativity > 0.6
    · simp [get_mock_response, htd, hv, trait_value, high_key]
      exact random_choice_mem _ idx (by simp [MOCK_RESPONSES, mock_pool_high_creativity])
    · simp [get_mock_response, htd, hv, trait_value, high_key]
      exact random_choice_mem _ idx (by simp [MOCK_RESPONSES, mock_pool_default])
  · by_cases hv : p.professionalism > 0.6
    · simp [get_mock_response, htd, hv, trait_value, high_key]
      exact random_choice_mem _ idx (by simp [MOCK_RESPONSES, mock_pool_high_professionalism])
    · simp [get_mock_response, htd, hv, trait_value, high_key]
      exact random_choice_mem _ idx (by simp [MOCK_RESPONSES, mock_pool_default])
  · by_cases hv : p.friendliness > 0.6
    · simp [get_mock_response, htd, hv, trait_value, high_key]
      exact random_choice_mem _ idx (by simp [MOCK_RESPONSES, mock_pool_high_friendliness])
    · simp [get_mock_response, htd, hv, trait_value, high_key]
      exact random_choice_mem _ idx (by simp [MOCK_RESPONSES, mock_pool_default])
  · by_cases hv : p.sarcasm > 0.6
    · simp [get_mock_response, htd, hv, trait_value, high_key]
      exact random_choice_mem _ idx (by simp [MOCK_RESPONSES, mock_pool_high_sarcasm])
    · simp [get_mock_response, htd, hv, trait_value, high_key]
      exact random_choice_mem _ idx (by simp [MOCK_RESPONSES, mock_pool_default])

/-- Witness for C3 at the claim's two sample configurations: dominant
sarcasm 0.9 lands in the high-sarcasm pool, all axes 0.5 lands in the
default pool. -/
theorem get_mock_response_pool_witness :
    get_mock_response ⟨0.1, 0.1, 0.1, 0.9, 0.1⟩ 0 ∈ MOCK_RESPONSES "high_sarcasm" ∧
    get_mock_response ⟨0.5, 0.5, 0.5, 0.5, 0.5⟩ 3 ∈ MOCK_RESPONSES "default" := by
  constructor
  · have h := (get_mock_response_pool ⟨0.1, 0.1, 0.1, 0.9, 0.1⟩ 0
      (by norm_num [validate_personality])).2
    have hd : get_dominant_trait ⟨0.1, 0.1, 0.1, 0.9, 0.1⟩ = Trait.sarcasm := by
      norm_num [get_dominant_trait, max_by_value]
    rw [hd] at h
    have hc : trait_value (⟨0.1, 0.1, 0.1, 0.9, 0.1⟩ : Personality) Trait.sarcasm > 0.6 := by
      norm_num [trait_value]
    rw [if_pos hc] at h
    exact h
  · have h := (get_mock_response_pool ⟨0.5, 0.5, 0.5, 0.5, 0.5⟩ 3
      (by norm_num [validate_personality])).2
    have hd : get_dominant_trait ⟨0.5, 0.5, 0.5, 0.5, 0.5⟩ = Trait.creativity := by
      norm_num [get_dominant_trait, max_by_value]
    rw [hd] at h
    have hc : ¬(trait_value (⟨0.5, 0.5, 0.5, 0.5, 0.5⟩ : Personality) Trait.creativity > 0.6) := by
      norm_num [trait_value]
    rw [if_neg hc] at h
    exact h

/-- C10: the mock fallback path is total and validation-free — for any
five-field personality with arbitrary rational values, in or out of range,
`get_mock_response` returns one of the 25 fixed literal strings of the five
pools. -/
theorem get_mock_response_total (p : Personality) (idx : ℕ) :
    get_mock_response p idx ∈ all_mock_strings := by
  simp only [get_mock_response]
  split_ifs
  · have hm := random_choice_mem (MOCK_RESPONSES "high_sarcasm") idx
      (by simp [MOCK_RESPONSES, mock_pool_high_sarcasm])
    have he : MOCK_RESPONSES "high_sarcasm" = mock_pool_high_sarcasm := by
      simp [MOCK_RESPONSES]
    rw [he] at hm
    unfold all_mock_strings
    exact List.mem_append_left _ (List.mem_append_left _
      (List.mem_append_left _ (List.mem_append_left _ hm)))
  · have hm := random_choice_mem (MOCK_RESPONSES "high_friendliness") idx
      (by simp [MOCK_RESPONSES, mock_pool_high_friendliness])
    have he : MOCK_RESPONSES "high_friendliness" = mock_pool_high_friendliness := by
      simp [MOCK_RESPONSES]
    rw [he] at hm
    unfold all_mock_strings
    exact List.mem_append_left _ (List.mem_append_left _
      (List.mem_append_left _ (List.mem_append_right _ hm)))
  · have hm := random_choice_mem (MOCK_RESPONSES "high_professionalism") idx
      (by simp [MOCK_RESPONSES, mock_pool_high_professionalism])
    have he : MOCK_RESPONSES "high_professionalism" = mock_pool_high_professionalism := by
      simp [MOCK_RESPONSES]
    rw [he] at hm
    unfold all_mock_strings
    exact List.mem_append_left _ (List.mem_append_left _ (List.mem_append_right _ hm))
  · have hm := random_choice_mem (MOCK_RESPONSES "high_creativity") idx
      (by simp [MOCK_RESPONSES, mock_pool_high_creativity])
    have he : MOCK_RESPONSES "high_creativity" = mock_pool_high_creativity := by
      simp [MOCK_RESPONSES]
    rw [he] at hm
    unfold all_mock_strings
    exact List.mem_append_left _ (List.mem_append_right _ hm)
  · have hm := random_choice_mem (MOCK_RESPONSES "default") idx
      (by simp [MOCK_RESPONSES, mock_pool_default])
    have he : MOCK_RESPONSES "default" = mock_pool_default := by
      simp [MOCK_RESPONSES]
    rw [he] at hm
    unfold all_mock_strings
    exact List.mem_append_right _ hm

/-- The instruction template is never the empty string. -/
theorem prompt_template_ne_empty (t : String) : prompt_template t ≠ "" := by
  intro he
  have hl := congrArg String.length he
  simp only [prompt_template, String.length_append] at hl
  have h0 : ("You are a chatbot with a personality that is ").length = 45 := rfl
  have h1 : ("" : String).length = 0 := rfl
  omega

/-- The clause list built inside `create_system_prompt` is the reference
per-axis threshold mapping `clauses_spec`, with the default clause
substituted on an empty list. -/
theorem system_prompt_text_eq (p : Personality) :
    system_prompt_text p =
      prompt_template (String.intercalate ", "
        (if clauses_spec p = [] then ["helpful and informative"] else clauses_spec p)) := by
  have e : (if (clauses_spec p).isEmpty then ["helpful and informative"] else clauses_spec p)
      = (if clauses_spec p = [] then ["helpful and informative"] else clauses_spec p) := by
    rcases clauses_spec p with _ | ⟨a, l⟩ <;> simp
  calc system_prompt_text p
      = prompt_template (String.intercalate ", "
          (if (clauses_spec p).isEmpty then ["helpful and informative"] else clauses_spec p)) :=
        rfl
    _ = _ := by rw [e]

/-- The history loop of `get_llm_response` re-wraps each message's role and
content, which is the identity on `Message` records. -/
theorem map_role_content_eta (l : List Message) :
    l.map (fun msg => Message.mk msg.role msg.content) = l := by
  induction l with
  | nil => rfl
  | cons a l ih => simp [ih]

/-- C4: for a valid personality, `create_system_prompt` yields exactly the
fixed instruction template around the ", "-join of the reference per-axis
threshold mapping (`clauses_spec`), with the single clause "helpful and
informative" substituted when no axis produces a clause. -/
theorem create_system_prompt_clauses (p : Personality) (h : validate_personality p) :
    create_system_prompt p =
      some (prompt_template (String.intercalate ", "
        (if clauses_spec p = [] then ["helpful and informative"] else clauses_spec p))) := by
  simp only [create_system_prompt, if_pos h]
  rw [system_prompt_text_eq]

/-- Witness for C4: a config with sarcasm exactly 0.45 and all other axes
neutral produces exactly the "slightly sarcastic" clause. -/
theorem create_system_prompt_clauses_witness :
    create_system_prompt ⟨0.5, 0.5, 0.5, 0.45, 0.5⟩ =
      some (prompt_template "slightly sarcastic") := by
  have h := create_system_prompt_clauses ⟨0.5, 0.5, 0.5, 0.45, 0.5⟩
    (by norm_num [validate_personality])
  have e : (if clauses_spec ⟨0.5, 0.5, 0.5, 0.45, 0.5⟩ = [] then ["helpful and informative"]
      else clauses_spec ⟨0.5, 0.5, 0.5, 0.45, 0.5⟩) = ["slightly sarcastic"] := by
    have ec : clauses_spec ⟨0.5, 0.5, 0.5, 0.45, 0.5⟩ = ["slightly sarcastic"] := by
      norm_num [clauses_spec, clause_professionalism, clause_friendliness, clause_sarcasm,
        clause_creativity]
    rw [ec]
    simp
  rw [e] at h
  have ei : String.intercalate ", " ["slightly sarcastic"] = "slightly sarcastic" := rfl
  rw [ei] at h
  exact h

/-- C8: for valid personalities, `create_system_prompt` succeeds with
non-empty text, and two configurations agreeing on the four prompt axes —
in particular two runs on the identical config, or two configs differing
only in verbosity — produce identical output. -/
theorem create_system_prompt_hyper (p q : Personality)
    (hp : validate_personality p) (hq : validate_personality q)
    (h1 : p.creativity = q.creativity) (h2 : p.professionalism = q.professionalism)
    (h3 : p.friendliness = q.friendliness) (h4 : p.sarcasm = q.sarcasm) :
    (∃ s, create_system_prompt p = some s ∧ s ≠ "") ∧
    create_system_prompt p = create_system_prompt q := by
  have hs : system_prompt_text p = system_prompt_text q := by
    simp only [system_prompt_text, h1, h2, h3, h4]
  refine ⟨⟨system_prompt_text p, by simp [create_system_prompt, hp], ?_⟩, ?_⟩
  · rw [system_prompt_text_eq]
    exact prompt_template_ne_empty _
  · simp [create_system_prompt, hp, hq, hs]

/-- Witness for C8: the default personality and the same config with
verbosity 0.9 yield the same non-empty prompt. -/
theorem create_system_prompt_hyper_witness :
    (∃ s, create_system_prompt ⟨0.5, 0.5, 0.5, 0.0, 0.5⟩ = some s ∧ s ≠ "") ∧
    create_system_prompt ⟨0.5, 0.5, 0.5, 0.0, 0.5⟩
      = create_system_prompt ⟨0.5, 0.5, 0.5, 0.0, 0.9⟩ :=
  create_system_prompt_hyper ⟨0.5, 0.5, 0.5, 0.0, 0.5⟩ ⟨0.5, 0.5, 0.5, 0.0, 0.9⟩
    (by norm_num [validate_personality]) (by norm_num [validate_personality])
    rfl rfl rfl rfl

/-- C5: after an accepted call at time `t0`, a call 0.5s later is rejected
with 1.5s wait remaining and leaves the stored timestamp unchanged, while a
call 2.1s later is accepted and stores the current time. -/
theorem rate_limit_spec (last t0 : ℚ) (h : (rate_limit last t0).1 = true) :
    (rate_limit last t0).2 = t0 ∧
    rate_limit t0 (t0 + 0.5) = (false, t0) ∧
    rate_limit_wait_time t0 (t0 + 0.5) = 1.5 ∧
    rate_limit t0 (t0 + 2.1) = (true, t0 + 2.1) := by
  refine ⟨?_, ?_, ?_, ?_⟩
  · rw [rate_limit_accepted last t0 h]
  · norm_num [rate_limit, MIN_API_CALL_INTERVAL]
  · norm_num [rate_limit_wait_time, MIN_API_CALL_INTERVAL]
  · norm_num [rate_limit, MIN_API_CALL_INTERVAL]

/-- Witness for C5 at concrete times: first call at time 5 against a stored
timestamp of 0. -/
theorem rate_limit_spec_witness :
    (rate_limit 0 5).2 = 5 ∧
    rate_limit 5 (5 + 0.5) = (false, 5) ∧
    rate_limit_wait_time 5 (5 + 0.5) = 1.5 ∧
    rate_limit 5 (5 + 2.1) = (true, 5 + 2.1) :=
  rate_limit_spec 0 5 (by norm_num [rate_limit, MIN_API_CALL_INTERVAL])

/-- After an accepted rate-limit check with a valid personality,
`get_llm_response` advances the session timestamp to `now` and posts the
payload built from the system prompt, the truncated history and the two
personality-derived parameters, whatever the network outcome. -/
theorem get_llm_response_accepted (prompt : String) (history : List Message)
    (p : Personality) (last now : ℚ) (net : NetResult)
    (hacc : (rate_limit last now).1 = true) (hv : validate_personality p) :
    (get_llm_response prompt history p last now net).last_api_call_time = now ∧
    (get_llm_response prompt history p last now net).sent =
      some ⟨OLLAMA_MODEL, build_messages (system_prompt_text p) history prompt,
        MIN_TEMPERATURE + p.creativity * (MAX_TEMPERATURE - MIN_TEMPERATURE),
        ⌊MIN_TOKENS + p.verbosity * (MAX_TOKENS - MIN_TOKENS)⌋, false⟩ := by
  have hr := rate_limit_accepted last now hacc
  cases net <;> simp [get_llm_response, hr, hv]

/-- C6: under acceptance and validation, the posted request's temperature is
exactly `0.3 + 0.7·creativity`, always within `[0.3, 1.0]` with the stated
endpoint values, and its token budget is exactly `⌊50 + 150·verbosity⌋`,
always within `[50, 200]` with the stated endpoint values. -/
theorem llm_request_parameters (prompt : String) (history : List Message)
    (p : Personality) (last now : ℚ) (net : NetResult)
    (hv : validate_personality p) (hacc : (rate_limit last now).1 = true) :
    ∃ pl, (get_llm_response prompt history p last now net).sent = some pl ∧
      pl.temperature = 0.3 + 0.7 * p.creativity ∧
      0.3 ≤ pl.temperature ∧ pl.temperature ≤ 1 ∧
      pl.num_predict = ⌊(50 : ℚ) + 150 * p.verbosity⌋ ∧
      (50 : ℤ) ≤ pl.num_predict ∧ pl.num_predict ≤ 200 ∧
      (p.creativity = 0 → pl.temperature = 0.3) ∧
      (p.creativity = 1 → pl.temperature = 1) ∧
      (p.verbosity = 0 → pl.num_predict = 50) ∧
      (p.verbosity = 1 → pl.num_predict = 200) := by
  obtain ⟨-, hsent⟩ := get_llm_response_accepted prompt history p last now net hacc hv
  have hv' := hv
  unfold validate_personality at hv'
  obtain ⟨⟨hc0, hc1⟩, -, -, -, hb0, hb1⟩ := hv'
  refine ⟨_, hsent, ?_, ?_, ?_, ?_, ?_, ?_, ?_, ?_, ?_, ?_⟩
  · show MIN_TEMPERATURE + p.creativity * (MAX_TEMPERATURE - MIN_TEMPERATURE)
        = 0.3 + 0.7 * p.creativity
    unfold MIN_TEMPERATURE MAX_TEMPERATURE
    ring
  · show (0.3 : ℚ) ≤ MIN_TEMPERATURE + p.creativity * (MAX_TEMPERATURE - MIN_TEMPERATURE)
    unfold MIN_TEMPERATURE MAX_TEMPERATURE
    nlinarith
  · show MIN_TEMPERATURE + p.creativity * (MAX_TEMPERATURE - MIN_TEMPERATURE) ≤ 1
    unfold MIN_TEMPERATURE MAX_TEMPERATURE
    nlinarith
  · show (⌊MIN_TOKENS + p.verbosity * (MAX_TOKENS - MIN_TOKENS)⌋ : ℤ)
        = ⌊(50 : ℚ) + 150 * p.verbosity⌋
    unfold MIN_TOKENS MAX_TOKENS
    congr 1
    ring
  · show (50 : ℤ) ≤ ⌊MIN_TOKENS + p.verbosity * (MAX_TOKENS - MIN_TOKENS)⌋
    rw [Int.le_floor]
    unfold MIN_TOKENS MAX_TOKENS
    push_cast
    nlinarith
  · show (⌊MIN_TOKENS + p.verbosity * (MAX_TOKENS - MIN_TOKENS)⌋ : ℤ) ≤ 200
    have hf := Int.floor_le (MIN_TOKENS + p.verbosity * (MAX_TOKENS - MIN_TOKENS))
    have hle : MIN_TOKENS + p.verbosity * (MAX_TOKENS - MIN_TOKENS) ≤ 200 := by
      unfold MIN_TOKENS MAX_TOKENS
      nlinarith
    exact_mod_cast le_trans hf hle
  · intro hcz
    show MIN_TEMPERATURE + p.creativity * (MAX_TEMPERATURE - MIN_TEMPERATURE) = 0.3
    rw [hcz]
    unfold MIN_TEMPERATURE MAX_TEMPERATURE
    norm_num
  · intro hco
    show MIN_TEMPERATURE + p.creativity * (MAX_TEMPERATURE - MIN_TEMPERATURE) = 1
    rw [hco]
    unfold MIN_TEMPERATURE MAX_TEMPERATURE
    norm_num
  · intro hbz
    show (⌊MIN_TOKENS + p.verbosity * (MAX_TOKENS - MIN_TOKENS)⌋ : ℤ) = 50
    rw [hbz]
    unfold MIN_TOKENS MAX_TOKENS
    norm_num
  · intro hbo
    show (⌊MIN_TOKENS + p.verbosity * (MAX_TOKENS - MIN_TOKENS)⌋ : ℤ) = 200
    rw [hbo]
    unfold MIN_TOKENS MAX_TOKENS
    norm_num

/-- Witness for C6 at creativity 1 and verbosity 1, exercising both upper
endpoints. -/
theorem llm_request_parameters_witness :
    ∃ pl, (get_llm_response "hi" [] ⟨1, 0.5, 0.5, 0.0, 1⟩ 0 10 (NetResult.ok "x")).sent
        = some pl ∧
      pl.temperature = 0.3 + 0.7 * (⟨1, 0.5, 0.5, 0.0, 1⟩ : Personality).creativity ∧
      0.3 ≤ pl.temperature ∧ pl.temperature ≤ 1 ∧
      pl.num_predict = ⌊(50 : ℚ) + 150 * (⟨1, 0.5, 0.5, 0.0, 1⟩ : Personality).verbosity⌋ ∧
      (50 : ℤ) ≤ pl.num_predict ∧ pl.num_predict ≤ 200 ∧
      ((⟨1, 0.5, 0.5, 0.0, 1⟩ : Personality).creativity = 0 → pl.temperature = 0.3) ∧
      ((⟨1, 0.5, 0.5, 0.0, 1⟩ : Personality).creativity = 1 → pl.temperature = 1) ∧
      ((⟨1, 0.5, 0.5, 0.0, 1⟩ : Personality).verbosity = 0 → pl.num_predict = 50) ∧
      ((⟨1, 0.5, 0.5, 0.0, 1⟩ : Personality).verbosity = 1 → pl.num_predict = 200) :=
  llm_request_parameters "hi" [] ⟨1, 0.5, 0.5, 0.0, 1⟩ 0 10 (NetResult.ok "x")
    (by norm_num [validate_personality]) (by norm_num [rate_limit, MIN_API_CALL_INTERVAL])

/-- C7: under acceptance and validation, the outbound message list is
exactly one system message carrying the synthesized prompt, followed by the
last `min 8 (length history)` history entries unchanged and in order (a
suffix of the history), followed by one user message carrying the user
prompt; its length is `min 8 (length history) + 2`. -/
theorem llm_outbound_messages (prompt : String) (history : List Message)
    (p : Personality) (last now : ℚ) (net : NetResult)
    (hv : validate_personality p) (hacc : (rate_limit last now).1 = true) :
    ∃ pl, (get_llm_response prompt history p last now net).sent = some pl ∧
      pl.messages = Message.mk "system" (system_prompt_text p) ::
        (history.drop (history.length - CONTEXT_WINDOW_SIZE) ++ [Message.mk "user" prompt]) ∧
      (∃ pre, history = pre ++ history.drop (history.length - CONTEXT_WINDOW_SIZE)) ∧
      (history.drop (history.length - CONTEXT_WINDOW_SIZE)).length
          = min CONTEXT_WINDOW_SIZE history.length ∧
      pl.messages.length = min CONTEXT_WINDOW_SIZE history.length + 2 := by
  obtain ⟨-, hsent⟩ := get_llm_response_accepted prompt history p last now net hacc hv
  have hmap := map_role_content_eta (history.drop (history.length - CONTEXT_WINDOW_SIZE))
  have hmsgs : build_messages (system_prompt_text p) history prompt =
      Message.mk "system" (system_prompt_text p) ::
        (history.drop (history.length - CONTEXT_WINDOW_SIZE) ++ [Message.mk "user" prompt]) := by
    unfold build_messages
    rw [hmap, List.cons_append]
  have hlen : (history.drop (history.length - CONTEXT_WINDOW_SIZE)).length
      = min CONTEXT_WINDOW_SIZE history.length := by
    rw [List.length_drop]
    unfold CONTEXT_WINDOW_SIZE
    omega
  have hmlen : (build_messages (system_prompt_text p) history prompt).length
      = min CONTEXT_WINDOW_SIZE history.length + 2 := by
    rw [hmsgs]
    simp only [List.length_cons, List.length_append, List.length_nil, hlen]
  exact ⟨_, hsent, hmsgs,
    ⟨history.take (history.length - CONTEXT_WINDOW_SIZE), (List.take_append_drop _ _).symm⟩,
    hlen, hmlen⟩

/-- Witness for C7 on a ten-message history: only the last eight entries are
kept between the system and user messages. -/
theorem llm_outbound_messages_witness :
    ∃ pl, (get_llm_response "hi" (List.replicate 10 (Message.mk "user" "m"))
        DEFAULT_PERSONALITY 0 10 (NetResult.ok "x")).sent = some pl ∧
      pl.messages = Message.mk "system" (system_prompt_text DEFAULT_PERSONALITY) ::
        ((List.replicate 10 (Message.mk "user" "m")).drop
            ((List.replicate 10 (Message.mk "user" "m")).length - CONTEXT_WINDOW_SIZE) ++
          [Message.mk "user" "hi"]) ∧
      (∃ pre, List.replicate 10 (Message.mk "user" "m") = pre ++
        (List.replicate 10 (Message.mk "user" "m")).drop
          ((List.replicate 10 (Message.mk "user" "m")).length - CONTEXT_WINDOW_SIZE)) ∧
      ((List.replicate 10 (Message.mk "user" "m")).drop
          ((List.replicate 10 (Message.mk "user" "m")).length - CONTEXT_WINDOW_SIZE)).length
        = min CONTEXT_WINDOW_SIZE (List.replicate 10 (Message.mk "user" "m")).length ∧
      pl.messages.length
        = min CONTEXT_WINDOW_SIZE (List.replicate 10 (Message.mk "user" "m")).length + 2 :=
  llm_outbound_messages "hi" (List.replicate 10 (Message.mk "user" "m"))
    DEFAULT_PERSONALITY 0 10 (NetResult.ok "x")
    (by norm_num [validate_personality, DEFAULT_PERSONALITY])
    (by norm_num [rate_limit, MIN_API_CALL_INTERVAL])

/-- C9: the session timestamp is advanced at rate-limit acceptance, before
validation and before the network request, so it equals `now` even when the
call then fails; any retry within 2 seconds of that failed call is rejected
as rate-limited, with no request issued and the timestamp untouched. -/
theorem rate_limit_advanced_on_failure (prompt : String) (history : List Message)
    (p : Personality) (last now d : ℚ) (net : NetResult)
    (hacc : (rate_limit last now).1 = true) (hd0 : 0 ≤ d) (hd : d < 2) :
    (get_llm_response prompt history p last now net).last_api_call_time = now ∧
    ∀ prompt2 history2 p2 net2,
      (get_llm_response prompt2 history2 p2 now (now + d) net2).result
          = Except.error FailKind.rateLimited ∧
      (get_llm_response prompt2 history2 p2 now (now + d) net2).last_api_call_time = now ∧
      (get_llm_response prompt2 history2 p2 now (now + d) net2).sent = none := by
  have hr := rate_limit_accepted last now hacc
  constructor
  · by_cases hv : validate_personality p
    · cases net <;> simp [get_llm_response, hr, hv]
    · simp [get_llm_response, hr, hv]
  · intro prompt2 history2 p2 net2
    have hc : d < MIN_API_CALL_INTERVAL := by
      unfold MIN_API_CALL_INTERVAL
      linarith
    have hrej : rate_limit now (now + d) = (false, now) := by
      simp [rate_limit, hc]
    simp [get_llm_response, hrej]

/-- Witness for C9: an accepted call at time 10 that fails validation (a
trait value of 2) still advances the timestamp to 10, and a retry 0.5s
later is rejected without a request. -/
theorem rate_limit_advanced_on_failure_witness :
    (get_llm_response "hi" [] ⟨2, 0, 0, 0, 0⟩ 0 10 (NetResult.ok "x")).last_api_call_time
        = 10 ∧
    (get_llm_response "retry" [] DEFAULT_PERSONALITY 10 (10 + 0.5) (NetResult.ok "y")).result
        = Except.error FailKind.rateLimited ∧
    (get_llm_response "retry" [] DEFAULT_PERSONALITY 10 (10 + 0.5)
        (NetResult.ok "y")).last_api_call_time = 10 ∧
    (get_llm_response "retry" [] DEFAULT_PERSONALITY 10 (10 + 0.5) (NetResult.ok "y")).sent
        = none := by
  have h := rate_limit_advanced_on_failure "hi" [] ⟨2, 0, 0, 0, 0⟩ 0 10 0.5
    (NetResult.ok "x") (by norm_num [rate_limit, MIN_API_CALL_INTERVAL])
    (by norm_num) (by norm_num)
  exact ⟨h.1, (h.2 "retry" [] DEFAULT_PERSONALITY (NetResult.ok "y")).1,
    (h.2 "retry" [] DEFAULT_PERSONALITY (NetResult.ok "y")).2.1,
    (h.2 "retry" [] DEFAULT_PERSONALITY (NetResult.ok "y")).2.2⟩

/-- C2: while the caller-owned `api_available` flag is false, a chat turn
attempts no network request, keeps the flag false, and answers with the mock
selector; with the flag true, a failure other than the rate-limit one flips
the flag to false while the rate-limit failure and success leave it true;
only `reset_conversation` sets it back to true. -/
theorem circuit_breaker (st : AppState) (prompt : String) (last now : ℚ)
    (net : NetResult) (idx : ℕ) :
    (st.api_available = false →
      (render_chat_step st prompt last now net idx).network_attempted = false ∧
      (render_chat_step st prompt last now net idx).state.api_available = false ∧
      (render_chat_step st prompt last now net idx).response
          = get_mock_response st.personality idx) ∧
    (∀ e, st.api_available = true →
      (get_llm_response prompt (st.messages ++ [Message.mk "user" prompt]) st.personality
          last now net).result = Except.error e →
      (render_chat_step st prompt last now net idx).state.api_available
        = (if e = FailKind.rateLimited then true else false)) ∧
    (∀ s, st.api_available = true →
      (get_llm_response prompt (st.messages ++ [Message.mk "user" prompt]) st.personality
          last now net).result = Except.ok s →
      (render_chat_step st prompt last now net idx).state.api_available = true) ∧
    (reset_conversation st).api_available = true := by
  refine ⟨?_, ?_, ?_, rfl⟩
  · intro h
    simp [render_chat_step, h]
  · intro e h he
    cases e <;> simp [render_chat_step, h, he]
  · intro s h hs
    simp [render_chat_step, h, hs]

/-- Witness for C2: with the circuit open no request is attempted and the
flag stays false; with it closed, a connection error flips it to false, a
success keeps it true, and a reset restores it. -/
theorem circuit_breaker_witness :
    (render_chat_step ⟨[], DEFAULT_PERSONALITY, false⟩ "hi" 0 10
        (NetResult.ok "x") 0).network_attempted = false ∧
    (render_chat_step ⟨[], DEFAULT_PERSONALITY, false⟩ "hi" 0 10
        (NetResult.ok "x") 0).state.api_available = false ∧
    (render_chat_step ⟨[], DEFAULT_PERSONALITY, true⟩ "hi" 0 10
        NetResult.connectionError 0).state.api_available
      = (if FailKind.connectionError = FailKind.rateLimited then true else false) ∧
    (render_chat_step ⟨[], DEFAULT_PERSONALITY, true⟩ "hi" 0 10
        (NetResult.ok "y") 0).state.api_available = true ∧
    (reset_conversation ⟨[], DEFAULT_PERSONALITY, false⟩).api_available = true := by
  have h1 := (circuit_breaker ⟨[], DEFAULT_PERSONALITY, false⟩ "hi" 0 10
    (NetResult.ok "x") 0).1 rfl
  have h2 := (circuit_breaker ⟨[], DEFAULT_PERSONALITY, true⟩ "hi" 0 10
    NetResult.connectionError 0).2.1 FailKind.connectionError rfl
    (by norm_num [get_llm_response, rate_limit, MIN_API_CALL_INTERVAL,
      validate_personality, DEFAULT_PERSONALITY])
  have h3 := (circuit_breaker ⟨[], DEFAULT_PERSONALITY, true⟩ "hi" 0 10
    (NetResult.ok "y") 0).2.2.1 "y" rfl
    (by norm_num [get_llm_response, rate_limit, MIN_API_CALL_INTERVAL,
      validate_personality, DEFAULT_PERSONALITY])
  exact ⟨h1.1, h1.2.1, h2, h3,
    (circuit_breaker ⟨[], DEFAULT_PERSONALITY, false⟩ "hi" 0 10
      (NetResult.ok "x") 0).2.2.2⟩
